import Mathlib

/-!
Shallow embedding of `cargo-crusader` (`src/main.rs`) and verification of its
specification's claims.

The program orchestrates differential regression tests: for every reverse
dependent of a crate it resolves a concrete version, builds it against the
published (base) crate and against a local (next) crate, classifies the outcome
into a `TestResult`, and aggregates an overall pass/fail.

Modelling conventions:
- External I/O boundaries (the curl HTTP client, UTF-8 decoding from `std`,
  `rustc_serialize` JSON decoding, the thread pool, and the build capability
  `compile_with_custom_dep`, which the spec treats as an external
  `BuildExecutor`) are passed as oracle functions.
- A Rust panic (`unwrap` on `None`, `unimplemented!()`, or an abnormally
  terminating worker) is modelled by `Option.none` at the function that panics.
- A worker thread that terminates without sending on its channel makes the
  corresponding blocking `recv` return `Err(RecvError)`; the receiver is
  embedded by the value its `recv` call yields.
-/

/-- Curl transport error code (`curl::ErrCode`), kept abstract as a number. -/
abbrev ErrCode := Nat

/-- A UTF-8 decoding error (`std::str::Utf8Error`), abstracted to the
valid prefix length it reports. -/
structure Utf8Err where
  valid_up_to : Nat
deriving DecidableEq, Repr

/-- A JSON decoding error (`rustc_serialize::json::DecoderError`), abstracted
to its message. -/
abbrev DecoderErr := String

/-- `std::sync::mpsc::RecvError`: the error a blocking `recv` returns when the
sending half of the channel was dropped without a value. -/
inductive RecvErr where
  | mk
deriving DecidableEq, Repr

/-- The curl HTTP response (`curl::http::Response`): status code and raw body
bytes. Headers are carried by the source only for debug formatting and are
omitted. -/
structure CurlHttpResponse where
  code : Nat
  body : List Nat
deriving DecidableEq, Repr

/-- A semver version. Modelled from the external `semver` crate interface:
pre-release and build metadata are omitted because the program's only
construction site parses the bare numeric literal `"0.0.0"`. -/
structure Version where
  major : Nat
  minor : Nat
  patch : Nat
deriving DecidableEq, Repr

/-- Split a character list on the dot separator (the version component
separator of a semver string). -/
def splitOnDot : List Char → List (List Char)
  | [] => [[]]
  | c :: rest =>
    let r := splitOnDot rest
    if c = '.' then [] :: r
    else
      match r with
      | [] => [[c]]
      | h :: t => (c :: h) :: t

/-- Accumulating decimal parse of a digit list; fails on any non-digit. -/
def parseNatCore : List Char → Nat → Option Nat
  | [], acc => some acc
  | c :: cs, acc =>
    if c.isDigit then parseNatCore cs (acc * 10 + (c.toNat - 48))
    else none

/-- Parse a nonempty all-digit character list as a natural number. -/
def parseNatStr (cs : List Char) : Option Nat :=
  match cs with
  | [] => none
  | _ :: _ => parseNatCore cs 0

/-- `semver::Version::parse` restricted to the bare numeric `X.Y.Z` shape
(modelled from the external semver crate; the program only ever parses
`"0.0.0"`). -/
def Version.parse (s : String) : Option Version :=
  match splitOnDot s.toList with
  | [ma, mi, pa] => do
    let major ← parseNatStr ma
    let minor ← parseNatStr mi
    let patch ← parseNatStr pa
    pure { major := major, minor := minor, patch := patch }
  | _ => none

/-- The outcome of one isolated build/test attempt (`CompileResult` in the
source). -/
structure CompileResult where
  stdout : String
  stderr : String
  success : Bool
deriving DecidableEq, Repr

/-- Modelled from the spec: `CompileResult::failed` is `unimplemented!()` in
the source; the spec's BuildOutcome contract defines a failing build as
`succeeded = false`, so `failed` is the negation of `success`. -/
def CompileResult.failed (r : CompileResult) : Bool := !r.success

/-- A reverse-dependent package name (`type RevDepName = String`). -/
abbrev RevDepName := String

/-- A dependent resolved to a concrete version (`struct RevDep`). -/
structure RevDep where
  name : RevDepName
  vers : Version
deriving DecidableEq, Repr

/-- One entry of the reverse-dependencies JSON payload (`struct Dep`). -/
structure Dep where
  crate_id : String
deriving DecidableEq, Repr

/-- The decoded reverse-dependencies JSON payload (`struct Response` inside
`parse_rev_deps`). -/
structure RevDepsResponse where
  dependencies : List Dep
deriving DecidableEq, Repr

/-- One version record of the registry crate payload (`struct RegistryVersion`). -/
structure RegistryVersion where
  num : String
deriving DecidableEq, Repr

/-- The decoded registry crate payload (`struct RegistryCrate`). -/
structure RegistryCrate where
  versions : List RegistryVersion
deriving DecidableEq, Repr

/-- The dependency override under which a dependent is built
(`enum CrateOverride`); paths are abstracted to strings. -/
inductive CrateOverride where
  | Default
  | Source (path : String)
deriving DecidableEq, Repr

/-- The source a crate side comes from (`enum Origin`). -/
inductive Origin where
  | Published
  | Source (path : String)
deriving DecidableEq, Repr

/-- `acquire_crate`: turn an origin into the corresponding override. -/
def acquire_crate : Origin → CrateOverride
  | .Published => .Default
  | .Source p => .Source p

mutual

/-- The error taxonomy (`enum Error`). External error payloads are carried in
abstracted form; `TestFailure` carries the full result list, making `Error`
mutually recursive with `TestResult`. -/
inductive Error : Type where
  | BadArgs : Error
  | ManifestName : String → Error
  | TestFailure : List TestResult → Error
  | SemverError : String → Error
  | TomlError : List String → Error
  | IoError : String → Error
  | CurlError : ErrCode → Error
  | HttpError : CurlHttpResponse → Error
  | Utf8Error : Utf8Err → Error
  | JsonDecode : DecoderErr → Error
  | RecvError : RecvErr → Error

/-- The four-state verdict payload (`enum TestResultData`). -/
inductive TestResultData : Type where
  | Broken : CompileResult → TestResultData
  | Fail : CompileResult → CompileResult → TestResultData
  | Pass : CompileResult → CompileResult → TestResultData
  | Error : Error → TestResultData

/-- A per-dependent verdict (`struct TestResult`): the resolved identity plus
its classified data. -/
inductive TestResult : Type where
  | mk : RevDep → TestResultData → TestResult

end

/-- Field accessor for `TestResult.rev_dep`. -/
def TestResult.rev_dep : TestResult → RevDep
  | .mk r _ => r

/-- Field accessor for `TestResult.data`. -/
def TestResult.data : TestResult → TestResultData
  | .mk _ d => d

/-- `TestResult::broken`. -/
def TestResult.broken (rev_dep : RevDep) (r : CompileResult) : TestResult :=
  .mk rev_dep (.Broken r)

/-- `TestResult::fail`. -/
def TestResult.fail (rev_dep : RevDep) (r1 r2 : CompileResult) : TestResult :=
  .mk rev_dep (.Fail r1 r2)

/-- `TestResult::pass`. -/
def TestResult.pass (rev_dep : RevDep) (r1 r2 : CompileResult) : TestResult :=
  .mk rev_dep (.Pass r1 r2)

/-- `TestResult::error`. -/
def TestResult.error (rev_dep : RevDep) (e : Error) : TestResult :=
  .mk rev_dep (.Error e)

/-- `TestResult::failed`: true exactly on the `Fail` variant. -/
def TestResult.failed : TestResult → Bool
  | .mk _ (.Fail _ _) => true
  | _ => false

/-- `crate_url`: the registry URL for a crate, optionally with an API call
suffix. -/
def crate_url (krate : String) (call : Option String) : String :=
  let url := "https://crates.io/api/v1/crates/" ++ krate
  match call with
  | some c => url ++ "/" ++ c
  | none => url

/-- `http_get_to_string`: perform a GET (through the `http` transport oracle),
reject any non-200 status, and decode the body as UTF-8 (through the `utf8`
oracle standing for `std::str::from_utf8`). -/
def http_get_to_string (http : String → Except ErrCode CurlHttpResponse)
    (utf8 : List Nat → Except Utf8Err String) (url : String) :
    Except Error String :=
  match http url with
  | .error e => .error (.CurlError e)
  | .ok resp =>
    if resp.code ≠ 200 then .error (.HttpError resp)
    else
      match utf8 resp.body with
      | .error e => .error (.Utf8Error e)
      | .ok body => .ok body

/-- `parse_rev_deps`: decode the reverse-dependencies payload (through the
`jd` oracle standing for `rustc_serialize::json::decode`) and project each
entry to its `crate_id`. -/
def parse_rev_deps (jd : String → Except DecoderErr RevDepsResponse)
    (s : String) : Except Error (List RevDepName) :=
  match jd s with
  | .error e => .error (.JsonDecode e)
  | .ok decoded => .ok (decoded.dependencies.map Dep.crate_id)

/-- `get_rev_deps`: fetch and decode the reverse-dependent list for a crate. -/
def get_rev_deps (http : String → Except ErrCode CurlHttpResponse)
    (utf8 : List Nat → Except Utf8Err String)
    (jd : String → Except DecoderErr RevDepsResponse)
    (crate_name : String) : Except Error (List RevDepName) :=
  match http_get_to_string http utf8
      (crate_url crate_name (some "reverse_dependencies")) with
  | .error e => .error e
  | .ok body =>
    match parse_rev_deps jd body with
    | .error e => .error e
    | .ok rev_deps => .ok rev_deps

/-- `parse_crate`: decode the registry crate payload. -/
def parse_crate (jd : String → Except DecoderErr RegistryCrate) (s : String) :
    Except Error RegistryCrate :=
  match jd s with
  | .error e => .error (.JsonDecode e)
  | .ok k => .ok k

/-- `resolve_rev_dep_version`: fetch and decode the registry metadata for a
dependent. In the source the success path then hits `unimplemented!()` (it
never selects a version): that panic is modelled as `none`. An error from the
fetch or the decode is returned as `some (.error e)`. -/
def resolve_rev_dep_version (http : String → Except ErrCode CurlHttpResponse)
    (utf8 : List Nat → Except Utf8Err String)
    (jd : String → Except DecoderErr RegistryCrate)
    (name : RevDepName) : Option (Except Error RevDep) :=
  match http_get_to_string http utf8 (crate_url name none) with
  | .error e => some (.error e)
  | .ok body =>
    match parse_crate jd body with
    | .error e => some (.error e)
    | .ok _krate => none

/-- One call issued to the build capability `compile_with_custom_dep`:
which resolved dependent was built under which override. -/
structure BuildCall where
  rev_dep : RevDep
  krate : CrateOverride
deriving DecidableEq, Repr

/-- `run_test_local`: the per-dependent state machine. `resolve` is the
outcome oracle for the `resolve_rev_dep_version` call and `compile` the
oracle for the external build capability (`compile_with_custom_dep` is
`unimplemented!()` in the source; the spec specifies it as the external
BuildExecutor). Returns the verdict together with the trace of build calls
issued; `none` models a panic (the `unwrap` of the sentinel parse). -/
def run_test_local (resolve : RevDepName → Except Error RevDep)
    (compile : RevDep → CrateOverride → CompileResult)
    (base_crate next_crate : CrateOverride) (rev_dep : RevDepName) :
    Option (TestResult × List BuildCall) :=
  match resolve rev_dep with
  | .error e =>
    match Version.parse "0.0.0" with
    | none => none
    | some vers => some (TestResult.error ⟨rev_dep, vers⟩ e, [])
  | .ok r =>
    let base_result := compile r base_crate
    if base_result.failed then
      some (TestResult.broken r base_result, [⟨r, base_crate⟩])
    else
      let next_result := compile r next_crate
      if next_result.failed then
        some (TestResult.fail r base_result next_result,
          [⟨r, base_crate⟩, ⟨r, next_crate⟩])
      else
        some (TestResult.pass r base_result next_result,
          [⟨r, base_crate⟩, ⟨r, next_crate⟩])

/-- `struct TestResultFuture`: the dependent's name paired with its result
channel. The receiver is embedded by the value its blocking `recv` yields:
`.ok r` when the worker sent verdict `r`, `.error RecvErr.mk` when the worker
terminated without sending. -/
structure TestResultFuture where
  rev_dep : RevDepName
  rx : Except RecvErr TestResult

/-- `TestResultFuture::take`: blocking receive; a failed receive is converted
into a synthetic `Error` verdict with the dependent's name and the sentinel
version parsed from `"0.0.0"` (`none` models the `unwrap` panicking). -/
def TestResultFuture.take (self : TestResultFuture) : Option TestResult :=
  match self.rx with
  | .ok r => some r
  | .error e =>
    match Version.parse "0.0.0" with
    | none => none
    | some vers => some (TestResult.error ⟨self.rev_dep, vers⟩ (.RecvError e))

/-- `run_test`: submit one job to the pool and return its future. The pool
execution is modelled by its observable effect on the channel: the receiver
yields the worker's `run_test_local` verdict unless the worker terminates
abnormally before sending — either an externally injected crash (`crash`) or
a panic inside `run_test_local` — in which case the sender is dropped and the
receive fails. -/
def run_test (resolve : RevDepName → Except Error RevDep)
    (compile : RevDep → CrateOverride → CompileResult) (crash : Bool)
    (base_crate next_crate : CrateOverride) (rev_dep : RevDepName) :
    TestResultFuture :=
  { rev_dep := rev_dep
    rx :=
      if crash then .error RecvErr.mk
      else
        match run_test_local resolve compile base_crate next_crate rev_dep with
        | some (res, _) => .ok res
        | none => .error RecvErr.mk }

/-- The submission loop of `run` (lines 37–40): one future per dependent name,
in order. `i` is the submission index, used by the `crashes` oracle to pick
which workers terminate abnormally. -/
def spawn_jobs (resolve : RevDepName → Except Error RevDep)
    (compile : RevDep → CrateOverride → CompileResult) (crashes : Nat → Bool)
    (base_crate next_crate : CrateOverride) :
    Nat → List RevDepName → List TestResultFuture
  | _, [] => []
  | i, name :: rest =>
    run_test resolve compile (crashes i) base_crate next_crate name ::
      spawn_jobs resolve compile crashes base_crate next_crate (i + 1) rest

/-- The collection loop of `run` (lines 42–43):
`results.into_iter().map(|r| r.take()).collect()`. Visits each future in
submission order; a panic inside any `take` (`none`) propagates as a panic of
the collecting thread. -/
def collect_results : List TestResultFuture → Option (List TestResult)
  | [] => some []
  | fut :: rest =>
    match fut.take with
    | none => none
    | some r =>
      match collect_results rest with
      | none => none
      | some rs => some (r :: rs)

/-- The aggregation of `run` (line 44): `results.iter().any(|r| r.failed())`. -/
def overall_failed (results : List TestResult) : Bool :=
  results.any TestResult.failed

/-- `run`, from the point where discovery has produced the dependent list
(lines 36–51 of the source; the configuration and discovery prefix supplies
`rev_deps` and the two overrides and is handled by the caller): submit one job
per dependent, take every future in submission order, and either return the
full result list or a `TestFailure` error carrying it. `none` models a panic
of the collecting thread. -/
def run (resolve : RevDepName → Except Error RevDep)
    (compile : RevDep → CrateOverride → CompileResult) (crashes : Nat → Bool)
    (base_crate next_crate : CrateOverride) (rev_deps : List RevDepName) :
    Option (Except Error (List TestResult)) :=
  let futures := spawn_jobs resolve compile crashes base_crate next_crate 0 rev_deps
  match collect_results futures with
  | none => none
  | some results =>
    let failed := overall_failed results
    if failed then some (.error (.TestFailure results))
    else some (.ok results)

/-- The value a successful `take` yields: the worker's verdict when one was
sent, otherwise the synthetic error verdict built from the sentinel version
(helper for characterising `run`). -/
def takeValue (fut : TestResultFuture) : TestResult :=
  match fut.rx with
  | .ok r => r
  | .error e => TestResult.error ⟨fut.rev_dep, ⟨0, 0, 0⟩⟩ (.RecvError e)

/-- The verdict ultimately collected for the dependent submitted at index `i`
(helper for characterising `run`). -/
def jobResult (resolve : RevDepName → Except Error RevDep)
    (compile : RevDep → CrateOverride → CompileResult) (crashes : Nat → Bool)
    (base_crate next_crate : CrateOverride) (i : Nat) (name : RevDepName) :
    TestResult :=
  takeValue (run_test resolve compile (crashes i) base_crate next_crate name)

/-- The list of collected verdicts for dependents submitted from index `i`
onward (helper for characterising `run`). -/
def jobResults (resolve : RevDepName → Except Error RevDep)
    (compile : RevDep → CrateOverride → CompileResult) (crashes : Nat → Bool)
    (base_crate next_crate : CrateOverride) :
    Nat → List RevDepName → List TestResult
  | _, [] => []
  | i, name :: rest =>
    jobResult resolve compile crashes base_crate next_crate i name ::
      jobResults resolve compile crashes base_crate next_crate (i + 1) rest

/-- Concrete resolver oracle: every name resolves to itself at version
`1.0.0`. -/
def okResolve : RevDepName → Except Error RevDep :=
  fun n => .ok ⟨n, ⟨1, 0, 0⟩⟩

/-- Concrete resolver oracle: resolution fails for every name. -/
def errResolve : RevDepName → Except Error RevDep :=
  fun _ => .error .BadArgs

/-- Concrete build oracle: builds succeed under the default override and fail
under a source override. -/
def baseOnlyCompile : RevDep → CrateOverride → CompileResult :=
  fun _ k =>
    match k with
    | .Default => ⟨"", "", true⟩
    | .Source _ => ⟨"", "", false⟩

/-- Concrete build oracle: every build fails. -/
def failCompile : RevDep → CrateOverride → CompileResult :=
  fun _ _ => ⟨"", "", false⟩

/-- Concrete build oracle: every build succeeds. -/
def passCompile : RevDep → CrateOverride → CompileResult :=
  fun _ _ => ⟨"", "", true⟩

/-- Concrete crash oracle: no worker terminates abnormally. -/
def noCrash : Nat → Bool := fun _ => false

/-- Concrete crash oracle: exactly the worker submitted at index 1 terminates
abnormally before sending. -/
def crashAtOne : Nat → Bool := fun i => i == 1

/-- Concrete HTTP oracle: every URL yields a 200 response with an empty
body. -/
def ok200Http : String → Except ErrCode CurlHttpResponse :=
  fun _ => .ok ⟨200, []⟩

/-- Concrete HTTP oracle: every URL yields a 500 response. -/
def err500Http : String → Except ErrCode CurlHttpResponse :=
  fun _ => .ok ⟨500, [1, 2, 3]⟩

/-- Concrete HTTP oracle: the transport fails with curl error code 7. -/
def curlFailHttp : String → Except ErrCode CurlHttpResponse :=
  fun _ => .error 7

/-- Concrete UTF-8 oracle: every body decodes to the empty string. -/
def okUtf8 : List Nat → Except Utf8Err String :=
  fun _ => .ok ""

/-- Concrete UTF-8 oracle: decoding fails at offset 0. -/
def errUtf8 : List Nat → Except Utf8Err String :=
  fun _ => .error ⟨0⟩

/-- Concrete JSON oracle: every payload decodes to a registry crate with no
versions. -/
def okJdCrate : String → Except DecoderErr RegistryCrate :=
  fun _ => .ok ⟨[]⟩

/-- Concrete JSON oracle: every payload decodes to a one-entry dependent
list. -/
def okJdRevDeps : String → Except DecoderErr RevDepsResponse :=
  fun _ => .ok ⟨[⟨"x"⟩]⟩

/-- Concrete JSON oracle: decoding the dependent list fails. -/
def errJdRevDeps : String → Except DecoderErr RevDepsResponse :=
  fun _ => .error "bad payload"

/-- The sentinel literal `"0.0.0"` parses to version 0.0.0. -/
theorem parse_sentinel : Version.parse "0.0.0" = some ⟨0, 0, 0⟩ := rfl

/-- `take` never fails: it yields the worker's verdict or the synthetic error
verdict. -/
theorem take_eq_takeValue (fut : TestResultFuture) :
    fut.take = some (takeValue fut) := by
  cases fut with
  | mk name rx =>
    cases rx with
    | ok r => rfl
    | error e => rfl

/-- Collecting the spawned futures succeeds and yields exactly the per-index
job verdicts. -/
theorem collect_spawn (resolve : RevDepName → Except Error RevDep)
    (compile : RevDep → CrateOverride → CompileResult) (crashes : Nat → Bool)
    (base_crate next_crate : CrateOverride) :
    ∀ (i : Nat) (l : List RevDepName),
      collect_results (spawn_jobs resolve compile crashes base_crate next_crate i l) =
        some (jobResults resolve compile crashes base_crate next_crate i l) := by
  intro i l
  induction l generalizing i with
  | nil => rfl
  | cons n rest ih =>
    simp [spawn_jobs, jobResults, collect_results, take_eq_takeValue, ih, jobResult]

/-- Characterisation of `run`: it always returns `some`, and the carried list
is the per-index job verdict list. -/
theorem run_eq_jobResults (resolve : RevDepName → Except Error RevDep)
    (compile : RevDep → CrateOverride → CompileResult) (crashes : Nat → Bool)
    (base_crate next_crate : CrateOverride) (rev_deps : List RevDepName) :
    run resolve compile crashes base_crate next_crate rev_deps =
      some (if overall_failed
          (jobResults resolve compile crashes base_crate next_crate 0 rev_deps)
        then .error (.TestFailure
          (jobResults resolve compile crashes base_crate next_crate 0 rev_deps))
        else .ok
          (jobResults resolve compile crashes base_crate next_crate 0 rev_deps)) := by
  simp only [run, collect_spawn]
  split <;> rfl

/-- `run` returns either the full verdict list or `TestFailure` carrying it. -/
theorem run_ok_or_failure (resolve : RevDepName → Except Error RevDep)
    (compile : RevDep → CrateOverride → CompileResult) (crashes : Nat → Bool)
    (base_crate next_crate : CrateOverride) (rev_deps : List RevDepName) :
    run resolve compile crashes base_crate next_crate rev_deps =
      some (.ok (jobResults resolve compile crashes base_crate next_crate 0 rev_deps)) ∨
    run resolve compile crashes base_crate next_crate rev_deps =
      some (.error (.TestFailure
        (jobResults resolve compile crashes base_crate next_crate 0 rev_deps))) := by
  rw [run_eq_jobResults]
  cases hb : overall_failed
      (jobResults resolve compile crashes base_crate next_crate 0 rev_deps) with
  | false => left; simp [hb]
  | true => right; simp [hb]

/-- One collected verdict per submitted dependent. -/
theorem jobResults_length (resolve : RevDepName → Except Error RevDep)
    (compile : RevDep → CrateOverride → CompileResult) (crashes : Nat → Bool)
    (base_crate next_crate : CrateOverride) :
    ∀ (i : Nat) (l : List RevDepName),
      (jobResults resolve compile crashes base_crate next_crate i l).length =
        l.length := by
  intro i l
  induction l generalizing i with
  | nil => rfl
  | cons n rest ih => simp [jobResults, ih]

/-- Positional access into the collected verdicts. -/
theorem jobResults_getElem (resolve : RevDepName → Except Error RevDep)
    (compile : RevDep → CrateOverride → CompileResult) (crashes : Nat → Bool)
    (base_crate next_crate : CrateOverride) :
    ∀ (i j : Nat) (l : List RevDepName),
      (jobResults resolve compile crashes base_crate next_crate i l)[j]? =
        l[j]?.map
          (jobResult resolve compile crashes base_crate next_crate (i + j)) := by
  intro i j l
  induction l generalizing i j with
  | nil => simp [jobResults]
  | cons n rest ih =>
    cases j with
    | zero => simp [jobResults]
    | succ j =>
      have harith : i + 1 + j = i + (j + 1) := by omega
      simp [jobResults, ih (i + 1) j, harith]

/-- A crashing worker's collected verdict is the synthetic error verdict. -/
theorem jobResult_crash (resolve : RevDepName → Except Error RevDep)
    (compile : RevDep → CrateOverride → CompileResult) (crashes : Nat → Bool)
    (base_crate next_crate : CrateOverride) (i : Nat) (name : RevDepName)
    (hc : crashes i = true) :
    jobResult resolve compile crashes base_crate next_crate i name =
      TestResult.error ⟨name, ⟨0, 0, 0⟩⟩ (.RecvError RecvErr.mk) := by
  simp [jobResult, run_test, takeValue, hc]

/-- The collected verdict at index `i` depends on the crash oracle only
through its value at `i`. -/
theorem jobResult_congr_crash (resolve : RevDepName → Except Error RevDep)
    (compile : RevDep → CrateOverride → CompileResult)
    (crashes crashes' : Nat → Bool) (base_crate next_crate : CrateOverride)
    (i : Nat) (name : RevDepName) (h : crashes i = crashes' i) :
    jobResult resolve compile crashes base_crate next_crate i name =
      jobResult resolve compile crashes' base_crate next_crate i name := by
  unfold jobResult
  rw [h]

/-- When the resolver preserves names, every collected verdict carries the
submitted dependent's name. -/
theorem jobResult_name (resolve : RevDepName → Except Error RevDep)
    (compile : RevDep → CrateOverride → CompileResult) (crashes : Nat → Bool)
    (base_crate next_crate : CrateOverride) (i : Nat) (name : RevDepName)
    (hres : ∀ n r, resolve n = .ok r → r.name = n) :
    (jobResult resolve compile crashes base_crate next_crate i name).rev_dep.name =
      name := by
  unfold jobResult run_test
  cases hc : crashes i with
  | true => simp [takeValue, TestResult.error, TestResult.rev_dep]
  | false =>
    cases hr : resolve name with
    | error e =>
      simp [run_test_local, hr, parse_sentinel, takeValue, TestResult.error,
        TestResult.rev_dep]
    | ok r =>
      have hn := hres name r hr
      by_cases hb : (compile r base_crate).failed
      · simp [run_test_local, hr, hb, takeValue, TestResult.broken,
          TestResult.rev_dep, hn]
      · by_cases hb2 : (compile r next_crate).failed
        · simp [run_test_local, hr, hb, hb2, takeValue, TestResult.fail,
            TestResult.rev_dep, hn]
        · simp [run_test_local, hr, hb, hb2, takeValue, TestResult.pass,
            TestResult.rev_dep, hn]

/-- When the resolver preserves names, the collected verdict names are the
submitted names, in order. -/
theorem jobResults_map_name (resolve : RevDepName → Except Error RevDep)
    (compile : RevDep → CrateOverride → CompileResult) (crashes : Nat → Bool)
    (base_crate next_crate : CrateOverride)
    (hres : ∀ n r, resolve n = .ok r → r.name = n) :
    ∀ (i : Nat) (l : List RevDepName),
      (jobResults resolve compile crashes base_crate next_crate i l).map
          (fun t => t.rev_dep.name) = l := by
  intro i l
  induction l generalizing i with
  | nil => rfl
  | cons n rest ih =>
    simp [jobResults, ih,
      jobResult_name resolve compile crashes base_crate next_crate i n hres]

/-- `TestResult::failed` holds exactly on the `Fail` variant. -/
theorem failed_iff_fail_data (r : TestResult) :
    r.failed = true ↔ ∃ r1 r2, r.data = .Fail r1 r2 := by
  cases r with
  | mk d data =>
    cases data with
    | Broken r1 => simp [TestResult.failed, TestResult.data]
    | Fail r1 r2 =>
      exact iff_of_true rfl ⟨r1, r2, rfl⟩
    | Pass r1 r2 => simp [TestResult.failed, TestResult.data]
    | Error e => simp [TestResult.failed, TestResult.data]

/-- The aggregate flag holds iff some verdict is `Fail`. -/
theorem overall_failed_iff_aux (rs : List TestResult) :
    overall_failed rs = true ↔ ∃ r ∈ rs, ∃ r1 r2, r.data = .Fail r1 r2 := by
  simp [overall_failed, List.any_eq_true, failed_iff_fail_data]

/-- C1. Totality of the batch: for every list of dependent names obtained from
discovery (duplicates included) and every behaviour of the resolver, the build
capability and the workers, `run` completes and carries exactly one
`TestResult` per submitted name — the collected list's length equals the
submitted list's length. -/
theorem run_totality (resolve : RevDepName → Except Error RevDep)
    (compile : RevDep → CrateOverride → CompileResult) (crashes : Nat → Bool)
    (base_crate next_crate : CrateOverride) (rev_deps : List RevDepName) :
    ∃ results : List TestResult,
      (run resolve compile crashes base_crate next_crate rev_deps =
          some (.ok results) ∨
        run resolve compile crashes base_crate next_crate rev_deps =
          some (.error (.TestFailure results))) ∧
      results.length = rev_deps.length :=
  ⟨jobResults resolve compile crashes base_crate next_crate 0 rev_deps,
    run_ok_or_failure resolve compile crashes base_crate next_crate rev_deps,
    jobResults_length resolve compile crashes base_crate next_crate 0 rev_deps⟩

/-- C2. Aggregate correctness: the overall-failed flag computed over the
collected verdicts (`results.iter().any(|r| r.failed())`) is true iff at
least one verdict is `Fail`; in particular any list of only `Broken`, `Pass`
and `Error` verdicts yields `false`, and any list containing a `Fail` yields
`true`. -/
theorem overall_failed_iff_some_fail (results : List TestResult) :
    overall_failed results = true ↔
      ∃ r ∈ results, ∃ r1 r2, r.data = .Fail r1 r2 :=
  overall_failed_iff_aux results

/-- C3. State-machine short-circuit: for a dependent whose resolution
succeeded and whose base-origin build fails, `run_test_local` terminates in
`Broken` carrying only the base outcome, and its build-call trace is exactly
the one base-origin call — no next-origin build is issued. -/
theorem run_test_local_short_circuit
    (resolve : RevDepName → Except Error RevDep)
    (compile : RevDep → CrateOverride → CompileResult)
    (base_crate next_crate : CrateOverride) (name : RevDepName) (r : RevDep)
    (hres : resolve name = .ok r)
    (hfail : (compile r base_crate).failed = true) :
    run_test_local resolve compile base_crate next_crate name =
      some (TestResult.broken r (compile r base_crate), [⟨r, base_crate⟩]) := by
  simp [run_test_local, hres, hfail]

/-- Witness for C3 at a concrete input: resolution succeeds and every build
fails, so the verdict is `Broken` after the single base-origin call. -/
theorem run_test_local_short_circuit_witness :
    run_test_local okResolve failCompile .Default (.Source "p") "A" =
      some (TestResult.broken ⟨"A", ⟨1, 0, 0⟩⟩ ⟨"", "", false⟩,
        [⟨⟨"A", ⟨1, 0, 0⟩⟩, .Default⟩]) :=
  run_test_local_short_circuit okResolve failCompile .Default (.Source "p")
    "A" ⟨"A", ⟨1, 0, 0⟩⟩ rfl rfl

/-- C4. Worker-fault containment: when the worker submitted at index `i`
terminates without sending, the batch still completes; the `i`-th collected
verdict is the synthetic `Error` verdict carrying the `i`-th submitted name,
the sentinel version 0.0.0 and the receive failure as cause; and at every
other index the verdict equals that of a run whose crash behaviour differs
only at `i`. -/
theorem run_fault_containment (resolve : RevDepName → Except Error RevDep)
    (compile : RevDep → CrateOverride → CompileResult)
    (crashes crashes' : Nat → Bool) (base_crate next_crate : CrateOverride)
    (rev_deps : List RevDepName) (i : Nat)
    (hc : crashes i = true)
    (hagree : ∀ j, j ≠ i → crashes' j = crashes j) :
    ∃ results results' : List TestResult,
      (run resolve compile crashes base_crate next_crate rev_deps =
          some (.ok results) ∨
        run resolve compile crashes base_crate next_crate rev_deps =
          some (.error (.TestFailure results))) ∧
      (run resolve compile crashes' base_crate next_crate rev_deps =
          some (.ok results') ∨
        run resolve compile crashes' base_crate next_crate rev_deps =
          some (.error (.TestFailure results'))) ∧
      results[i]? = rev_deps[i]?.map (fun n =>
        TestResult.error ⟨n, ⟨0, 0, 0⟩⟩ (.RecvError RecvErr.mk)) ∧
      (∀ j, j ≠ i → results[j]? = results'[j]?) := by
  refine ⟨jobResults resolve compile crashes base_crate next_crate 0 rev_deps,
    jobResults resolve compile crashes' base_crate next_crate 0 rev_deps,
    run_ok_or_failure resolve compile crashes base_crate next_crate rev_deps,
    run_ok_or_failure resolve compile crashes' base_crate next_crate rev_deps,
    ?_, ?_⟩
  · rw [jobResults_getElem]
    cases h : rev_deps[i]? with
    | none => rfl
    | some n =>
      simp only [Option.map_some']
      rw [jobResult_crash resolve compile crashes base_crate next_crate
        (0 + i) n (by simpa using hc)]
  · intro j hj
    rw [jobResults_getElem, jobResults_getElem]
    cases h : rev_deps[j]? with
    | none => rfl
    | some n =>
      simp only [Option.map_some']
      rw [jobResult_congr_crash resolve compile crashes crashes' base_crate
        next_crate (0 + j) n (by simpa using (hagree j hj).symm)]

/-- Witness for C4 at a concrete input: with dependents `[A, B, C]` and only
the worker of index 1 crashing, `B` gets the synthetic error verdict and the
verdicts at the other indices match the crash-free run. -/
theorem run_fault_containment_witness :
    ∃ results results' : List TestResult,
      (run okResolve passCompile crashAtOne .Default (.Source "p") ["A", "B", "C"] =
          some (.ok results) ∨
        run okResolve passCompile crashAtOne .Default (.Source "p") ["A", "B", "C"] =
          some (.error (.TestFailure results))) ∧
      (run okResolve passCompile noCrash .Default (.Source "p") ["A", "B", "C"] =
          some (.ok results') ∨
        run okResolve passCompile noCrash .Default (.Source "p") ["A", "B", "C"] =
          some (.error (.TestFailure results'))) ∧
      results[1]? = (["A", "B", "C"] : List RevDepName)[1]?.map (fun n =>
        TestResult.error ⟨n, ⟨0, 0, 0⟩⟩ (.RecvError RecvErr.mk)) ∧
      (∀ j, j ≠ 1 → results[j]? = results'[j]?) :=
  run_fault_containment okResolve passCompile crashAtOne noCrash .Default
    (.Source "p") ["A", "B", "C"] 1 rfl
    (fun j hj => by simp [noCrash, crashAtOne, hj])

/-- C5. Order preservation: whenever the resolver binds each submitted name to
itself (as resolution does), the collected verdict list is in exactly the
submission order — its names, in order, are the submitted names — for every
behaviour of the build capability and of the workers. -/
theorem run_order_preservation (resolve : RevDepName → Except Error RevDep)
    (compile : RevDep → CrateOverride → CompileResult) (crashes : Nat → Bool)
    (base_crate next_crate : CrateOverride) (rev_deps : List RevDepName)
    (hres : ∀ n r, resolve n = .ok r → r.name = n) :
    ∃ results : List TestResult,
      (run resolve compile crashes base_crate next_crate rev_deps =
          some (.ok results) ∨
        run resolve compile crashes base_crate next_crate rev_deps =
          some (.error (.TestFailure results))) ∧
      results.map (fun t => t.rev_dep.name) = rev_deps :=
  ⟨jobResults resolve compile crashes base_crate next_crate 0 rev_deps,
    run_ok_or_failure resolve compile crashes base_crate next_crate rev_deps,
    jobResults_map_name resolve compile crashes base_crate next_crate hres
      0 rev_deps⟩

/-- Witness for C5 at a concrete input: dependents `[A, B, C]` with the worker
of index 1 crashing; the collected names are still `[A, B, C]` in order. -/
theorem run_order_preservation_witness :
    ∃ results : List TestResult,
      (run okResolve passCompile crashAtOne .Default (.Source "p") ["A", "B", "C"] =
          some (.ok results) ∨
        run okResolve passCompile crashAtOne .Default (.Source "p") ["A", "B", "C"] =
          some (.error (.TestFailure results))) ∧
      results.map (fun t => t.rev_dep.name) = ["A", "B", "C"] :=
  run_order_preservation okResolve passCompile crashAtOne .Default
    (.Source "p") ["A", "B", "C"]
    (fun n r h => by injection h with h2; rw [← h2])

/-- C6. Resolution-failure fallback: for a dependent whose resolution fails
with `e`, `run_test_local` returns the `Error` verdict pairing the dependent's
original name with the sentinel version 0.0.0 and carrying `e` as cause, and
its build-call trace is empty — no build is attempted. -/
theorem run_test_local_resolution_fallback
    (resolve : RevDepName → Except Error RevDep)
    (compile : RevDep → CrateOverride → CompileResult)
    (base_crate next_crate : CrateOverride) (name : RevDepName) (e : Error)
    (hres : resolve name = .error e) :
    run_test_local resolve compile base_crate next_crate name =
      some (TestResult.error ⟨name, ⟨0, 0, 0⟩⟩ e, []) := by
  simp [run_test_local, hres, parse_sentinel]

/-- Witness for C6 at a concrete input: the always-failing resolver yields the
`Error` verdict with sentinel identity and no build calls. -/
theorem run_test_local_resolution_fallback_witness :
    run_test_local errResolve passCompile .Default (.Source "p") "gamma" =
      some (TestResult.error ⟨"gamma", ⟨0, 0, 0⟩⟩ .BadArgs, []) :=
  run_test_local_resolution_fallback errResolve passCompile .Default
    (.Source "p") "gamma" .BadArgs rfl

/-- C7. Regression surfacing: `run` completes with the complete verdict list,
one per dependent; when some verdict is `Fail` the terminal result is a
`TestFailure` error carrying that full list, and when none is it is the
success value carrying the same full list. -/
theorem run_regression_surfacing (resolve : RevDepName → Except Error RevDep)
    (compile : RevDep → CrateOverride → CompileResult) (crashes : Nat → Bool)
    (base_crate next_crate : CrateOverride) (rev_deps : List RevDepName) :
    ∃ results : List TestResult, results.length = rev_deps.length ∧
      ((∃ r ∈ results, ∃ r1 r2, r.data = .Fail r1 r2) →
        run resolve compile crashes base_crate next_crate rev_deps =
          some (.error (.TestFailure results))) ∧
      (¬ (∃ r ∈ results, ∃ r1 r2, r.data = .Fail r1 r2) →
        run resolve compile crashes base_crate next_crate rev_deps =
          some (.ok results)) := by
  refine ⟨jobResults resolve compile crashes base_crate next_crate 0 rev_deps,
    jobResults_length resolve compile crashes base_crate next_crate 0 rev_deps,
    ?_, ?_⟩
  · intro hfail
    rw [run_eq_jobResults]
    rw [if_pos ((overall_failed_iff_aux _).mpr hfail)]
  · intro hok
    rw [run_eq_jobResults]
    rw [if_neg (fun hb => hok ((overall_failed_iff_aux _).mp hb))]

/-- Witness for C7 at a concrete input: base builds succeed, next builds fail,
so both dependents regress and the run surfaces `TestFailure`. -/
theorem run_regression_surfacing_witness :
    ∃ results : List TestResult,
      results.length = (["alpha", "beta"] : List RevDepName).length ∧
      ((∃ r ∈ results, ∃ r1 r2, r.data = .Fail r1 r2) →
        run okResolve baseOnlyCompile noCrash .Default (.Source "p")
            ["alpha", "beta"] =
          some (.error (.TestFailure results))) ∧
      (¬ (∃ r ∈ results, ∃ r1 r2, r.data = .Fail r1 r2) →
        run okResolve baseOnlyCompile noCrash .Default (.Source "p")
            ["alpha", "beta"] =
          some (.ok results)) :=
  run_regression_surfacing okResolve baseOnlyCompile noCrash .Default
    (.Source "p") ["alpha", "beta"]

/-- C8. Version-resolver contract (violated by the code): on a registry fetch
that succeeds — a 200 response whose body decodes, here given by the concrete
oracles `ok200Http`, `okUtf8`, `okJdCrate` — `resolve_rev_dep_version`
reaches the source's `unimplemented!()` and panics (modelled `none`) instead
of returning a dependent bound to the latest published version: the function
has a third outcome besides a `ResolvedDependent` and a resolution error. -/
theorem resolve_rev_dep_version_hits_unimplemented :
    resolve_rev_dep_version ok200Http okUtf8 okJdCrate "alpha" = none := rfl

/-- C9. Registry HTTP error discrimination for the reverse-dependents fetch:
a transport failure yields `CurlError`; a non-200 response yields `HttpError`
and the outcome is independent of the UTF-8 and JSON decoders (the body is
not decoded); a 200 response with a non-UTF-8 body yields `Utf8Error`; a 200
response whose text fails JSON decoding yields `JsonDecode`; only a 200
response with a decodable body yields the dependent list. -/
theorem registry_http_error_discrimination
    (http : String → Except ErrCode CurlHttpResponse)
    (utf8 utf8' : List Nat → Except Utf8Err String)
    (jd jd' : String → Except DecoderErr RevDepsResponse) (name : String) :
    (∀ e, http (crate_url name (some "reverse_dependencies")) = .error e →
      get_rev_deps http utf8 jd name = .error (.CurlError e)) ∧
    (∀ resp, http (crate_url name (some "reverse_dependencies")) = .ok resp →
      resp.code ≠ 200 →
      get_rev_deps http utf8 jd name = .error (.HttpError resp) ∧
      get_rev_deps http utf8 jd name = get_rev_deps http utf8' jd' name) ∧
    (∀ resp u, http (crate_url name (some "reverse_dependencies")) = .ok resp →
      resp.code = 200 → utf8 resp.body = .error u →
      get_rev_deps http utf8 jd name = .error (.Utf8Error u)) ∧
    (∀ resp s j, http (crate_url name (some "reverse_dependencies")) = .ok resp →
      resp.code = 200 → utf8 resp.body = .ok s → jd s = .error j →
      get_rev_deps http utf8 jd name = .error (.JsonDecode j)) ∧
    (∀ resp s d, http (crate_url name (some "reverse_dependencies")) = .ok resp →
      resp.code = 200 → utf8 resp.body = .ok s → jd s = .ok d →
      get_rev_deps http utf8 jd name = .ok (d.dependencies.map Dep.crate_id)) := by
  refine ⟨?_, ?_, ?_, ?_, ?_⟩
  · intro e he
    simp [get_rev_deps, http_get_to_string, he]
  · intro resp hr hcode
    constructor
    · simp [get_rev_deps, http_get_to_string, hr, hcode]
    · simp [get_rev_deps, http_get_to_string, hr, hcode]
  · intro resp u hr hcode hu
    simp [get_rev_deps, http_get_to_string, hr, hcode, hu]
  · intro resp s j hr hcode hu hj
    simp [get_rev_deps, http_get_to_string, parse_rev_deps, hr, hcode, hu, hj]
  · intro resp s d hr hcode hu hj
    simp [get_rev_deps, http_get_to_string, parse_rev_deps, hr, hcode, hu, hj]

/-- Witness for C9 at a concrete input: a 500 response yields `HttpError`,
and swapping both decoders does not change the outcome. -/
theorem registry_http_error_discrimination_witness :
    get_rev_deps err500Http okUtf8 okJdRevDeps "foo" =
        .error (.HttpError ⟨500, [1, 2, 3]⟩) ∧
      get_rev_deps err500Http okUtf8 okJdRevDeps "foo" =
        get_rev_deps err500Http errUtf8 errJdRevDeps "foo" :=
  (registry_http_error_discrimination err500Http okUtf8 errUtf8 okJdRevDeps
    errJdRevDeps "foo").2.1 ⟨500, [1, 2, 3]⟩ rfl (by decide)

/-- C10. Sentinel construction never panics: the literal `"0.0.0"` parses, so
in both error-recovery paths — resolution failure inside `run_test_local` and
receive failure inside `take` — the `unwrap` of the sentinel parse cannot
panic and each path totally returns an `Error` verdict. -/
theorem sentinel_construction_total
    (resolve : RevDepName → Except Error RevDep)
    (compile : RevDep → CrateOverride → CompileResult)
    (base_crate next_crate : CrateOverride) (name : RevDepName) (e : Error)
    (re : RecvErr) (fut : TestResultFuture)
    (hres : resolve name = .error e) (hfut : fut.rx = .error re) :
    Version.parse "0.0.0" = some ⟨0, 0, 0⟩ ∧
    (∃ res trace, run_test_local resolve compile base_crate next_crate name =
        some (res, trace) ∧ res.data = .Error e) ∧
    (∃ r, fut.take = some r ∧ r.data = .Error (.RecvError re)) := by
  refine ⟨parse_sentinel,
    ⟨TestResult.error ⟨name, ⟨0, 0, 0⟩⟩ e, [], ?_, rfl⟩,
    TestResult.error ⟨fut.rev_dep, ⟨0, 0, 0⟩⟩ (.RecvError re), ?_, rfl⟩
  · simp [run_test_local, hres, parse_sentinel]
  · unfold TestResultFuture.take
    rw [hfut]
    rfl

/-- Witness for C10 at a concrete input: a failing resolver and a dropped
sender both produce `Error` verdicts without panicking. -/
theorem sentinel_construction_total_witness :
    Version.parse "0.0.0" = some ⟨0, 0, 0⟩ ∧
    (∃ res trace,
      run_test_local errResolve passCompile .Default (.Source "p") "B" =
        some (res, trace) ∧ res.data = .Error .BadArgs) ∧
    (∃ r, TestResultFuture.take ⟨"B", .error RecvErr.mk⟩ = some r ∧
      r.data = .Error (.RecvError RecvErr.mk)) :=
  sentinel_construction_total errResolve passCompile .Default (.Source "p")
    "B" .BadArgs RecvErr.mk ⟨"B", .error RecvErr.mk⟩ rfl rfl
